import Mathlib

/-!
A shallow embedding of the command-driven stream lifecycle controller of
`cyberwave-edge-python` (`src/cyberwave_edge/service.py` and
`src/cyberwave_edge/config.py`), together with theorems settling the frozen
claims about it.

Modelling conventions:
* The external stream handle (`self.client.video_stream(...)`) is opaque; its
  duck-typed attributes and the success/failure of each of its calls are
  captured by Boolean fields of `StreamHandle` (a guard such as
  `hasattr(x, "pc") and x.pc` becomes the single Boolean `pcPresent`).
* A Python call that may raise is modelled as `Except Unit Unit`
  (`Except.error ()` = the call raised); `try/except` blocks become matches
  on that result.  Logging never raises.
* Side effects (MQTT publishes, handle calls, lock operations, log lines)
  are recorded in a trace.  Each trace entry carries a snapshot of
  `self.video_stream` at the moment the effect is performed, so ordering
  claims ("the handle field is cleared before teardown runs") are statable.
* `async with self._video_operation_lock` is recorded as `lockAcquire` /
  `lockRelease` effects; the embedding is sequential, as the lock serializes
  the handlers end-to-end.
-/

namespace CyberwaveEdge

/-- An observable side effect of the service.  `hid` identifies which stream
handle a call was made on (handles are given identities so "a second handle
was constructed/started" is expressible). -/
inductive Effect where
  | publishAck (result : String)
  | constructHandle (hid : Nat)
  | handleStart (hid : Nat)
  | handleStop (hid : Nat)
  | pcClose (hid : Nat)
  | streamerClose (hid : Nat)
  | streamerRelease (hid : Nat)
  | setupMonitoring (hid : Nat)
  | lockAcquire
  | lockRelease
  | logWarning (msg : String)
  | logError (msg : String)
  deriving DecidableEq, Repr

/-- The opaque stream handle returned by `self.client.video_stream(...)`.
The Boolean fields describe its duck-typed attributes and which of its calls
raise, mirroring the checks and `try/except` blocks in `service.py`:
`pcPresent` = `hasattr(h, "pc") and h.pc`, `streamerPresent` =
`hasattr(h, "streamer") and h.streamer`, `hasRelease` =
`hasattr(h.streamer, "release")`; `startRaises` / `stopRaises` /
`pcCloseRaises` / `streamerCloseRaises` / `releaseRaises` say whether
`h.start()` / `h.stop()` / `h.pc.close()` / `h.streamer.close()` /
`h.streamer.release()` raise when called. -/
structure StreamHandle where
  id : Nat
  pcPresent : Bool
  pcCloseRaises : Bool
  streamerPresent : Bool
  streamerCloseRaises : Bool
  stopRaises : Bool
  hasRelease : Bool
  releaseRaises : Bool
  startRaises : Bool
  deriving DecidableEq, Repr

/-- The mutable fields of `EdgeService` the lifecycle controller touches:
`clientPresent` = `self.client is not None`, `video_stream` =
`self.video_stream`. -/
structure ServiceState where
  clientPresent : Bool
  video_stream : Option StreamHandle
  deriving DecidableEq, Repr

/-- The environment for one run of the start sequence: whether the
`self.client.video_stream(...)` constructor call raises, and, when it does
not, the fresh handle it returns. -/
structure Env where
  constructRaises : Bool
  freshHandle : StreamHandle
  deriving DecidableEq, Repr

/-- A trace entry: the effect together with the value of
`self.video_stream` at the moment the effect happens. -/
abbrev Trace := List (Effect × Option StreamHandle)

/-- The outcome of one external call: `Except.error ()` when it raises. -/
def callResult (raises : Bool) : Except Unit Unit :=
  if raises then Except.error () else Except.ok ()

/-- The body of the outer `try` of `stop_video_stream`
(`service.py` lines 265-282), run on the taken handle `stream_to_stop`:
close the peer connection (own `try/except` logging a warning), close the
streamer (own `try/except` logging a warning), call the handle's generic
`stop()` (own `try/except` logging an error).  Every step is caught by its
own inner handler, so the body itself never raises: the first component is
always `Except.ok ()`. -/
def stopTeardownBody (h : StreamHandle) : Except Unit Unit × List Effect :=
  let pcTr :=
    if h.pcPresent then
      match callResult h.pcCloseRaises with
      | Except.ok _ => [Effect.pcClose h.id]
      | Except.error _ =>
          [Effect.pcClose h.id, Effect.logWarning "Error closing peer connection"]
    else []
  let strTr :=
    if h.streamerPresent then
      match callResult h.streamerCloseRaises with
      | Except.ok _ => [Effect.streamerClose h.id]
      | Except.error _ =>
          [Effect.streamerClose h.id, Effect.logWarning "Error closing streamer"]
    else []
  let stopTr :=
    match callResult h.stopRaises with
    | Except.ok _ => [Effect.handleStop h.id]
    | Except.error _ =>
        [Effect.handleStop h.id, Effect.logError "Error stopping stream"]
  (Except.ok (), pcTr ++ strTr ++ stopTr)

/-- The teardown of `stop_video_stream` (`service.py` lines 265-291): the
outer `try` body, and the outer `except` handler, which logs and attempts a
forced `streamer.release()` (itself caught).  The outer handler runs only
when the body raises. -/
def stopTeardown (h : StreamHandle) : List Effect :=
  match stopTeardownBody h with
  | (Except.ok _, tr) => tr
  | (Except.error _, tr) =>
      tr ++ Effect.logError "Error stopping video stream" ::
        (if h.streamerPresent && h.hasRelease then
          match callResult h.releaseRaises with
          | Except.ok _ => [Effect.streamerRelease h.id]
          | Except.error _ =>
              [Effect.streamerRelease h.id, Effect.logError "Error during cleanup"]
        else [])

/-- `stop_video_stream` (`service.py` lines 259-291).  If a handle is
present it is taken into the local `stream_to_stop` and `self.video_stream`
is set to `None` first; only then does teardown run, reading only the local
variable.  Every teardown path is caught, so the method never raises: the
`Except` component is `Except.ok ()` on every path (it is kept so callers'
`try/except` structure can be translated faithfully). -/
def stop_video_stream (s : ServiceState) : Except Unit Unit × ServiceState × Trace :=
  match s.video_stream with
  | none => (Except.ok (), s, [])
  | some h =>
      let s1 : ServiceState := { s with video_stream := none }
      (Except.ok (), s1, (stopTeardown h).map (fun e => (e, s1.video_stream)))

/-- `start_video_stream` (`service.py` lines 171-206).  Raises
(`Except.error ()`) when the client is absent, when handle construction
raises, or when the handle's `start()` raises; in the latter case the
partial handle's `stop()` is attempted (its error logged and ignored),
`self.video_stream` is cleared, and the exception is re-raised.  On success
the handle is stored and frame monitoring is set up
(`_setup_frame_monitoring` catches every exception internally, so it is
modelled as an infallible `setupMonitoring` effect). -/
def start_video_stream (env : Env) (s : ServiceState) :
    Except Unit Unit × ServiceState × Trace :=
  if s.clientPresent = false then
    (Except.error (), s, [(Effect.logError "Client not connected", s.video_stream)])
  else
    let staleStep : ServiceState × Trace :=
      match s.video_stream with
      | some _ =>
          match stop_video_stream s with
          | (Except.ok _, s1, tr) => (s1, tr)
          | (Except.error _, s1, tr) =>
              (s1, tr ++ [(Effect.logError "Error stopping existing stream",
                           s1.video_stream)])
      | none => (s, [])
    let s1 := staleStep.1
    let tr1 := staleStep.2
    if env.constructRaises then
      (Except.error (), { s1 with video_stream := none },
        tr1 ++ [(Effect.logError "Error starting video stream", s1.video_stream)])
    else
      let h := env.freshHandle
      let tr2 := tr1 ++ [(Effect.constructHandle h.id, s1.video_stream)]
      match callResult h.startRaises with
      | Except.error _ =>
          let cleanupTr : Trace :=
            match callResult h.stopRaises with
            | Except.ok _ => [(Effect.handleStop h.id, s1.video_stream)]
            | Except.error _ =>
                [(Effect.handleStop h.id, s1.video_stream),
                 (Effect.logError "Error during cleanup", s1.video_stream)]
          (Except.error (), { s1 with video_stream := none },
            tr2 ++ [(Effect.handleStart h.id, s1.video_stream),
                    (Effect.logError "Error starting video stream", s1.video_stream)]
                ++ cleanupTr)
      | Except.ok _ =>
          let s2 := { s1 with video_stream := some h }
          (Except.ok (), s2,
            tr2 ++ [(Effect.handleStart h.id, s1.video_stream),
                    (Effect.setupMonitoring h.id, s2.video_stream)])

/-- `_handle_start_video_command` (`service.py` lines 127-147).  With no
client: log and return, before the lock, with no acknowledgment.  Otherwise,
under the lock: if a stream is already running publish "ok" (no start); else
run the start sequence and publish "ok", or on any exception log and (client
still present) publish "error". -/
def handle_start_video_command (env : Env) (s : ServiceState) :
    ServiceState × Trace :=
  if s.clientPresent = false then
    (s, [(Effect.logError "Client not available", s.video_stream)])
  else
    let pre : Trace := [(Effect.lockAcquire, s.video_stream)]
    match s.video_stream with
    | some _ =>
        (s, pre ++ [(Effect.publishAck "ok", s.video_stream),
                    (Effect.lockRelease, s.video_stream)])
    | none =>
        match start_video_stream env s with
        | (Except.ok _, s1, tr) =>
            (s1, pre ++ tr ++ [(Effect.publishAck "ok", s1.video_stream),
                               (Effect.lockRelease, s1.video_stream)])
        | (Except.error _, s1, tr) =>
            (s1, pre ++ tr
              ++ [(Effect.logError "Error handling start_video command",
                   s1.video_stream)]
              ++ (if s1.clientPresent then
                    [(Effect.publishAck "error", s1.video_stream)]
                  else [])
              ++ [(Effect.lockRelease, s1.video_stream)])

/-- `_handle_stop_video_command` (`service.py` lines 149-169).  With no
client: log and return, before the lock, with no acknowledgment.  Otherwise,
under the lock: if no stream is running publish "ok" (no teardown); else run
the stop sequence and publish "ok", or on any exception log and (client
still present) publish "error". -/
def handle_stop_video_command (s : ServiceState) : ServiceState × Trace :=
  if s.clientPresent = false then
    (s, [(Effect.logError "Client not available", s.video_stream)])
  else
    let pre : Trace := [(Effect.lockAcquire, s.video_stream)]
    match s.video_stream with
    | none =>
        (s, pre ++ [(Effect.publishAck "ok", s.video_stream),
                    (Effect.lockRelease, s.video_stream)])
    | some _ =>
        match stop_video_stream s with
        | (Except.ok _, s1, tr) =>
            (s1, pre ++ tr ++ [(Effect.publishAck "ok", s1.video_stream),
                               (Effect.lockRelease, s1.video_stream)])
        | (Except.error _, s1, tr) =>
            (s1, pre ++ tr
              ++ [(Effect.logError "Error handling stop_video command",
                   s1.video_stream)]
              ++ (if s1.clientPresent then
                    [(Effect.publishAck "error", s1.video_stream)]
                  else [])
              ++ [(Effect.lockRelease, s1.video_stream)])

/-- The decoded body of an inbound MQTT message: either not a dict
(`isinstance(data, dict)` false, replaced by `{}`), or a dict modelled as an
association list of string keys to string values (command payloads carry
string values; duplicate keys cannot arise from a decoded JSON object). -/
inductive MsgData where
  | notDict
  | dict (entries : List (String × String))
  deriving DecidableEq, Repr

/-- `"status" in payload`. -/
def hasKey (es : List (String × String)) (k : String) : Bool :=
  (es.lookup k).isSome

/-- What the command callback can schedule onto the event loop via
`asyncio.run_coroutine_threadsafe`. -/
inductive Scheduled where
  | startCmd
  | stopCmd
  deriving DecidableEq, Repr

/-- `on_command_message` (`service.py` lines 93-123).  `loopAvailable` =
`self.event_loop is not None`.  Returns the handler scheduled onto the event
loop (if any) and the log effects; the callback itself never publishes and
never mutates the service state (its outer `try/except` only guards against
exceptions, and nothing in the model raises). -/
def on_command_message (loopAvailable : Bool) (data : MsgData) :
    Option Scheduled × List Effect :=
  let payload : List (String × String) :=
    match data with
    | MsgData.dict es => es
    | MsgData.notDict => []
  if hasKey payload "status" then (none, [])
  else
    match payload.lookup "command" with
    | none => (none, [Effect.logWarning "Command message missing command field"])
    | some c =>
        if c = "" then
          (none, [Effect.logWarning "Command message missing command field"])
        else if loopAvailable = false then
          (none, [Effect.logError "Event loop not available, cannot process command"])
        else if c = "start_video" then (some Scheduled.startCmd, [])
        else if c = "stop_video" then (some Scheduled.stopCmd, [])
        else (none, [Effect.logWarning ("Unknown command type: " ++ c)])

/-- The `command` field of a message, `payload.get("command")`. -/
def commandField (data : MsgData) : Option String :=
  match data with
  | MsgData.dict es => es.lookup "command"
  | MsgData.notDict => none

/-- Whether a message carries a `status` key (and is therefore an echoed
acknowledgment, not a command). -/
def hasStatusKey (data : MsgData) : Bool :=
  match data with
  | MsgData.dict es => hasKey es "status"
  | MsgData.notDict => false

/-- Python falsiness of `payload.get("command")`: `None` or the empty
string. -/
def commandFalsy : Option String → Bool
  | none => true
  | some c => c = ""

/-! ## Configuration (`config.py`) -/

/-- The `EdgeConfig` dataclass (`config.py` lines 18-66) after
`__post_init__` has overlaid environment variables on the dataclass
defaults.  Integer fields use `Int` (Python `int`). -/
structure EdgeConfig where
  cyberwave_token : Option String
  cyberwave_base_url : String
  mqtt_host : Option String
  mqtt_port : Int
  mqtt_username : Option String
  mqtt_password : Option String
  edge_uuid : String
  twin_uuid : Option String
  camera_id : Int
  camera_fps : Int
  log_level : String
  deriving DecidableEq, Repr

/-- `os.getenv(k, default)` for a string field with a string default. -/
def getenvOr (env : String → Option String) (k : String) (d : String) : String :=
  match env k with
  | some v => v
  | none => d

/-- `int(os.getenv(k, default))` for an int field: the default (already an
int) when the variable is unset, otherwise the parse of the string value,
raising (`Except.error ()`) when it is not an integer literal. -/
def parseIntField (env : String → Option String) (k : String) (d : Int) :
    Except Unit Int :=
  match env k with
  | none => Except.ok d
  | some v =>
      match v.toInt? with
      | some n => Except.ok n
      | none => Except.error ()

/-- `EdgeConfig()` construction with `__post_init__` (`config.py` lines
48-66): each field is `os.getenv` over the dataclass default (token, host,
username, password and twin default to `None`; base URL, edge UUID and log
level have string defaults; port, camera id and fps are parsed ints whose
parse failure raises out of construction). -/
def configFromEnv (env : String → Option String) : Except Unit EdgeConfig :=
  match parseIntField env "CYBERWAVE_MQTT_PORT" 1883 with
  | Except.error _ => Except.error ()
  | Except.ok port =>
    match parseIntField env "CAMERA_ID" 0 with
    | Except.error _ => Except.error ()
    | Except.ok cid =>
      match parseIntField env "CAMERA_FPS" 10 with
      | Except.error _ => Except.error ()
      | Except.ok cfps =>
          Except.ok
            { cyberwave_token := env "CYBERWAVE_TOKEN"
              cyberwave_base_url :=
                getenvOr env "CYBERWAVE_BASE_URL" "https://api.cyberwave.com"
              mqtt_host := env "CYBERWAVE_MQTT_HOST"
              mqtt_port := port
              mqtt_username := env "CYBERWAVE_MQTT_USERNAME"
              mqtt_password := env "CYBERWAVE_MQTT_PASSWORD"
              edge_uuid := getenvOr env "CYBERWAVE_EDGE_UUID" "edge-device-001"
              twin_uuid := env "CYBERWAVE_TWIN_UUID"
              camera_id := cid
              camera_fps := cfps
              log_level := getenvOr env "LOG_LEVEL" "INFO" }

/-- Python falsiness of an optional-string config field: `None` or `""`. -/
def strOptFalsy : Option String → Bool
  | none => true
  | some s => s = ""

/-- `EdgeConfig.validate` (`config.py` lines 68-78): false when the token or
the twin identifier is falsy. -/
def EdgeConfig.validate (c : EdgeConfig) : Bool :=
  if strOptFalsy c.cyberwave_token then false
  else if strOptFalsy c.twin_uuid then false
  else true

/-- `load_config` (`config.py` lines 81-112).  `env` is the process
environment after the `.env` file (if any) has been merged by
`load_dotenv`; the `ENVIRONMENT` bookkeeping at lines 99-103 touches only
that unrelated variable and a log line, and is elided.  Construction failure
or failed validation raises (`ValueError`). -/
def load_config (env : String → Option String) : Except Unit EdgeConfig :=
  match configFromEnv env with
  | Except.error _ => Except.error ()
  | Except.ok c => if c.validate then Except.ok c else Except.error ()

/-- `async_main` (`service.py` lines 313-346), at the granularity the claims
need: `load_config()` runs first; on any exception the handler logs and
calls `sys.exit(1)` — before an `EdgeService` is constructed, so before any
backend or MQTT connection is attempted.  On success the service is created
and `run()` proceeds to `connect()`.  Result: (exit code if the process
exits at startup, whether a connection was attempted). -/
def async_main (env : String → Option String) : Option Nat × Bool :=
  match load_config env with
  | Except.error _ => (some 1, false)
  | Except.ok _ => (none, true)

/-! ## Trace observations -/

/-- The acknowledgment results published in a list of effects, in order. -/
def ackResultsE (es : List Effect) : List String :=
  es.filterMap (fun e =>
    match e with
    | Effect.publishAck r => some r
    | _ => none)

/-- The acknowledgment results published in a trace, in order. -/
def ackResults (tr : Trace) : List String :=
  ackResultsE (tr.map Prod.fst)

/-- The result string a handler publishes for the outcome of a start/stop
sequence: "ok" when it returned, "error" when it raised. -/
def ackString : Except Unit Unit → String
  | Except.ok _ => "ok"
  | Except.error _ => "error"

/-- Whether an effect is a forced `streamer.release()` call. -/
def isRelease : Effect → Bool
  | Effect.streamerRelease _ => true
  | _ => false

/-- Whether an effect constructs or starts a stream handle. -/
def isConstructOrStart : Effect → Bool
  | Effect.constructHandle _ => true
  | Effect.handleStart _ => true
  | _ => false

/-- Whether an effect is a teardown call on a handle (peer-connection close,
streamer close/release, or the handle's generic stop). -/
def isTeardownCall : Effect → Bool
  | Effect.pcClose _ => true
  | Effect.streamerClose _ => true
  | Effect.streamerRelease _ => true
  | Effect.handleStop _ => true
  | _ => false

theorem ackResultsE_append (a b : List Effect) :
    ackResultsE (a ++ b) = ackResultsE a ++ ackResultsE b := by
  simp [ackResultsE, List.filterMap_append]

theorem ackResults_append (a b : Trace) :
    ackResults (a ++ b) = ackResults a ++ ackResults b := by
  simp [ackResults, ackResultsE_append]

theorem ackResults_map_snap (l : List Effect) (x : Option StreamHandle) :
    ackResults (l.map (fun e => (e, x))) = ackResultsE l := by
  have : (Prod.fst ∘ fun e => (e, x)) = (id : Effect → Effect) := rfl
  simp [ackResults, List.map_map, this]

/-- The teardown of the stop sequence never publishes an acknowledgment. -/
theorem stopTeardown_acks (h : StreamHandle) : ackResultsE (stopTeardown h) = [] := by
  rcases h with ⟨hid, pc, pcR, sp, spR, stR, rel, relR, startR⟩
  cases pc <;> cases pcR <;> cases sp <;> cases spR <;> cases stR <;> rfl

/-- `stop_video_stream` never raises. -/
theorem stop_video_stream_ok (s : ServiceState) :
    (stop_video_stream s).1 = Except.ok () := by
  rcases s with ⟨cp, vs⟩
  cases vs <;> rfl

/-- `stop_video_stream` never publishes an acknowledgment itself. -/
theorem stop_video_stream_acks (s : ServiceState) :
    ackResults (stop_video_stream s).2.2 = [] := by
  rcases s with ⟨cp, vs⟩
  cases vs with
  | none => rfl
  | some h =>
      show ackResults ((stopTeardown h).map _) = []
      rw [ackResults_map_snap, stopTeardown_acks]

/-- `stop_video_stream` leaves the handle field `None`. -/
theorem stop_video_stream_state (s : ServiceState) :
    (stop_video_stream s).2.1.video_stream = none := by
  rcases s with ⟨cp, vs⟩
  cases vs <;> rfl

/-- `stop_video_stream` does not touch the client field. -/
theorem stop_video_stream_client (s : ServiceState) :
    (stop_video_stream s).2.1.clientPresent = s.clientPresent := by
  rcases s with ⟨cp, vs⟩
  cases vs <;> rfl

/-- The start sequence never publishes an acknowledgment itself. -/
theorem start_video_stream_acks (env : Env) (s : ServiceState) :
    ackResults (start_video_stream env s).2.2 = [] := by
  rcases env with ⟨cr, h⟩
  rcases h with ⟨hid, pc, pcR, sp, spR, stR, rel, relR, startR⟩
  rcases s with ⟨cp, vs⟩
  cases cp
  · rfl
  · cases vs with
    | none =>
        cases cr <;> cases startR <;> cases stR <;>
          simp [start_video_stream, callResult, ackResults, ackResultsE]
    | some h2 =>
        rcases h2 with ⟨hid2, pc2, pcR2, sp2, spR2, stR2, rel2, relR2, startR2⟩
        cases cr <;> cases startR <;> cases stR <;> cases pc2 <;> cases pcR2 <;>
          cases sp2 <;> cases spR2 <;> cases stR2 <;> rfl

/-- The start sequence does not touch the client field. -/
theorem start_video_stream_client (env : Env) (s : ServiceState) :
    (start_video_stream env s).2.1.clientPresent = s.clientPresent := by
  rcases env with ⟨cr, h⟩
  rcases h with ⟨hid, pc, pcR, sp, spR, stR, rel, relR, startR⟩
  rcases s with ⟨cp, vs⟩
  cases cp
  · rfl
  · cases vs with
    | none => cases cr <;> cases startR <;> cases stR <;> rfl
    | some h2 => cases cr <;> cases startR <;> cases stR <;> rfl

/-! ## Claim theorems -/

/-- Claim C3: whenever a stream handle is already present (`video_stream`
is not `None`), processing a StartVideo command is a no-op that publishes
"ok" and neither constructs nor starts a second stream handle: the state is
unchanged and the trace is exactly lock-acquire, publish "ok",
lock-release. -/
theorem c3_start_idempotent_when_running (env : Env) (s : ServiceState)
    (h : StreamHandle) (hc : s.clientPresent = true)
    (hv : s.video_stream = some h) :
    handle_start_video_command env s =
      (s, [(Effect.lockAcquire, some h), (Effect.publishAck "ok", some h),
           (Effect.lockRelease, some h)]) ∧
    (∀ p ∈ (handle_start_video_command env s).2, isConstructOrStart p.1 = false) ∧
    (handle_start_video_command env s).1 = s := by
  rcases s with ⟨cp, vs⟩
  simp only at hc hv
  subst hc
  subst hv
  refine ⟨rfl, ?_, rfl⟩
  intro p hp
  simp [handle_start_video_command] at hp
  rcases hp with rfl | rfl | rfl <;> rfl

/-- Claim C4: whenever no stream handle is present (`video_stream` is
`None`), processing a StopVideo command is a no-op that publishes "ok" and
performs no teardown call on any handle: the state is unchanged and the
trace is exactly lock-acquire, publish "ok", lock-release. -/
theorem c4_stop_idempotent_when_absent (s : ServiceState)
    (hc : s.clientPresent = true) (hv : s.video_stream = none) :
    handle_stop_video_command s =
      (s, [(Effect.lockAcquire, none), (Effect.publishAck "ok", none),
           (Effect.lockRelease, none)]) ∧
    (∀ p ∈ (handle_stop_video_command s).2, isTeardownCall p.1 = false) ∧
    (handle_stop_video_command s).1 = s := by
  rcases s with ⟨cp, vs⟩
  simp only at hc hv
  subst hc
  subst hv
  refine ⟨rfl, ?_, rfl⟩
  intro p hp
  simp [handle_stop_video_command] at hp
  rcases hp with rfl | rfl | rfl <;> rfl

/-- Claim C6: every execution of the stop sequence clears the controller's
handle field before invoking any teardown step — `video_stream` is `None`
in the snapshot attached to every effect of the stop trace — and
`video_stream` is still `None` when the sequence returns, regardless of
which teardown steps fail. -/
theorem c6_stop_clears_handle_first (s : ServiceState) :
    (stop_video_stream s).2.1.video_stream = none ∧
    ∀ p ∈ (stop_video_stream s).2.2, p.2 = none := by
  refine ⟨stop_video_stream_state s, ?_⟩
  rcases s with ⟨cp, vs⟩
  cases vs with
  | none => intro p hp; simp [stop_video_stream] at hp
  | some h =>
      intro p hp
      simp only [stop_video_stream, List.mem_map] at hp
      rcases hp with ⟨e, _, rfl⟩
      rfl

/-- Claim C7: an inbound message whose payload contains a "status" key is
ignored by the command callback: nothing is scheduled, nothing is logged
and no acknowledgment is published (the callback performs no state change
on any input — it only ever schedules handlers). -/
theorem c7_status_messages_ignored (la : Bool) (data : MsgData)
    (hst : hasStatusKey data = true) :
    on_command_message la data = (none, []) := by
  cases data with
  | notDict => simp [hasStatusKey] at hst
  | dict es =>
      simp only [hasStatusKey] at hst
      simp [on_command_message, hst]

/-- Claim C10: when the controller's client is absent, both command
handlers log an error and return before acquiring the lock: the trace is a
single log line (no lock acquisition, no acknowledgment) and the state is
unchanged. -/
theorem c10_no_client_no_ack (env : Env) (s : ServiceState)
    (hc : s.clientPresent = false) :
    handle_start_video_command env s =
      (s, [(Effect.logError "Client not available", s.video_stream)]) ∧
    handle_stop_video_command s =
      (s, [(Effect.logError "Client not available", s.video_stream)]) ∧
    ackResults (handle_start_video_command env s).2 = [] ∧
    ackResults (handle_stop_video_command s).2 = [] ∧
    (∀ p ∈ (handle_start_video_command env s).2, p.1 ≠ Effect.lockAcquire) ∧
    (∀ p ∈ (handle_stop_video_command s).2, p.1 ≠ Effect.lockAcquire) := by
  rcases s with ⟨cp, vs⟩
  simp only at hc
  subst hc
  refine ⟨rfl, rfl, rfl, rfl, ?_, ?_⟩ <;>
    · intro p hp
      simp [handle_start_video_command, handle_stop_video_command] at hp
      subst hp
      simp

/-- Claim C5, counterexample: a handle whose generic `stop()` raises, whose
media sink (streamer) is present and has a `release()` method — yet the stop
sequence performs no forced `release()` call.  The `stop()` failure is
caught by the inner per-step handler (`service.py` lines 279-282), so the
outer handler holding the `release()` fallback (lines 284-291) never runs. -/
theorem c5_release_fallback_counterexample :
    (⟨0, true, false, true, false, true, true, false, false⟩ : StreamHandle).stopRaises
        = true ∧
    (⟨0, true, false, true, false, true, true, false, false⟩ : StreamHandle).streamerPresent
        = true ∧
    (⟨0, true, false, true, false, true, true, false, false⟩ : StreamHandle).hasRelease
        = true ∧
    Effect.handleStop 0 ∈
      (stop_video_stream
        ⟨true, some ⟨0, true, false, true, false, true, true, false, false⟩⟩).2.2.map
        Prod.fst ∧
    ((stop_video_stream
        ⟨true, some ⟨0, true, false, true, false, true, true, false, false⟩⟩).2.2.map
        Prod.fst).any isRelease = false := by
  refine ⟨rfl, rfl, rfl, ?_, rfl⟩
  decide

/-- Claim C5 as amended: when the handle's generic `stop()` call fails, the
failure is caught and logged by its own per-step handler and the stop
sequence completes without invoking `release()` on the media sink — the
forced-`release()` fallback in the outer handler is unreachable, because
every teardown step is independently caught. -/
theorem c5_stop_failure_logged_no_release (s : ServiceState) (h : StreamHandle)
    (hv : s.video_stream = some h) (hf : h.stopRaises = true) :
    Effect.logError "Error stopping stream" ∈
      (stop_video_stream s).2.2.map Prod.fst ∧
    ((stop_video_stream s).2.2.map Prod.fst).any isRelease = false := by
  rcases s with ⟨cp, vs⟩
  simp only at hv
  subst hv
  rcases h with ⟨hid, pc, pcR, sp, spR, stR, rel, relR, startR⟩
  simp only at hf
  subst hf
  cases pc <;> cases pcR <;> cases sp <;> cases spR <;>
    simp [stop_video_stream, stopTeardown, stopTeardownBody, callResult, isRelease]

/-- Claim C2: when the start sequence runs (client present, no stream yet,
handle construction succeeds) and the fresh handle's `start()` raises, the
StartVideo handler publishes exactly the "error" acknowledgment, the
partial handle's `stop()` is attempted and the handle is not retained
(`video_stream` ends `None`).  The exception does not propagate out of the
handler: `handle_start_video_command` is a total function into state and
trace, because the source handler catches every exception. -/
theorem c2_start_failure_contained (env : Env) (s : ServiceState)
    (hc : s.clientPresent = true) (hv : s.video_stream = none)
    (hcr : env.constructRaises = false)
    (hsr : env.freshHandle.startRaises = true) :
    ackResults (handle_start_video_command env s).2 = ["error"] ∧
    (handle_start_video_command env s).1.video_stream = none ∧
    Effect.handleStop env.freshHandle.id ∈
      (handle_start_video_command env s).2.map Prod.fst ∧
    (start_video_stream env s).1 = Except.error () := by
  rcases env with ⟨cr, h⟩
  rcases h with ⟨hid, pc, pcR, sp, spR, stR, rel, relR, startR⟩
  rcases s with ⟨cp, vs⟩
  simp only at hc hv hcr hsr
  subst hc; subst hv; subst hcr; subst hsr
  cases stR <;>
    exact ⟨rfl, rfl, by simp [handle_start_video_command, start_video_stream,
      callResult], rfl⟩

/-- Claim C8: an inbound command-candidate message (not a status echo,
processed while the event loop is available — the loop is installed in
`run()` before the subscription is made, so it is always available when the
callback fires) whose payload lacks a `command` field, carries a falsy one,
or carries an unrecognized command value, causes the callback to log a
warning, schedule no handler, and publish no acknowledgment; the callback
mutates no state on any input. -/
theorem c8_unknown_command_warned (la : Bool) (data : MsgData)
    (hla : la = true) (hst : hasStatusKey data = false)
    (hcmd : commandFalsy (commandField data) = true ∨
      ∃ c, commandField data = some c ∧ c ≠ "" ∧ c ≠ "start_video" ∧
        c ≠ "stop_video") :
    (on_command_message la data).1 = none ∧
    (∃ m, Effect.logWarning m ∈ (on_command_message la data).2) ∧
    ackResultsE (on_command_message la data).2 = [] := by
  subst hla
  cases data with
  | notDict =>
      exact ⟨rfl, ⟨"Command message missing command field", by
        simp [on_command_message, hasKey]⟩, rfl⟩
  | dict es =>
      simp only [hasStatusKey] at hst
      rcases hcmd with hfal | ⟨c, hcf, hne, hns, hnp⟩
      · cases hlk : es.lookup "command" with
        | none =>
            refine ⟨?_, ⟨"Command message missing command field", ?_⟩, ?_⟩ <;>
              simp [on_command_message, hst, hlk, ackResultsE]
        | some c =>
            have hc0 : c = "" := by
              rw [commandField, hlk] at hfal
              simpa [commandFalsy] using hfal
            subst hc0
            refine ⟨?_, ⟨"Command message missing command field", ?_⟩, ?_⟩ <;>
              simp [on_command_message, hst, hlk, ackResultsE]
      · rw [commandField] at hcf
        refine ⟨?_, ⟨"Unknown command type: " ++ c, ?_⟩, ?_⟩ <;>
          simp [on_command_message, hst, hcf, hne, hns, hnp, ackResultsE]

/-- Claim C9: when the bearer token or the twin identifier is absent from
the environment, `EdgeConfig.validate` fails on any config that gets
constructed, `load_config` raises, and the process exits with status 1
before any backend or MQTT connection is attempted
(`async_main` returns exit code 1 with no connection attempt). -/
theorem c9_config_validation_fatal (env : String → Option String)
    (habs : env "CYBERWAVE_TOKEN" = none ∨ env "CYBERWAVE_TWIN_UUID" = none) :
    (∀ c, configFromEnv env = Except.ok c → c.validate = false) ∧
    load_config env = Except.error () ∧
    async_main env = (some 1, false) := by
  have key : ∀ c, configFromEnv env = Except.ok c → c.validate = false := by
    intro c hok
    have hfields : c.cyberwave_token = env "CYBERWAVE_TOKEN" ∧
        c.twin_uuid = env "CYBERWAVE_TWIN_UUID" := by
      unfold configFromEnv at hok
      cases h1 : parseIntField env "CYBERWAVE_MQTT_PORT" 1883 with
      | error e => rw [h1] at hok; exact Except.noConfusion hok
      | ok port =>
        rw [h1] at hok
        cases h2 : parseIntField env "CAMERA_ID" 0 with
        | error e => rw [h2] at hok; exact Except.noConfusion hok
        | ok cid =>
          rw [h2] at hok
          cases h3 : parseIntField env "CAMERA_FPS" 10 with
          | error e => rw [h3] at hok; exact Except.noConfusion hok
          | ok cfps =>
            rw [h3] at hok
            cases hok
            exact ⟨rfl, rfl⟩
    rcases habs with htok | htwin
    · unfold EdgeConfig.validate
      rw [hfields.1, htok]
      simp [strOptFalsy]
    · unfold EdgeConfig.validate
      split
      · rfl
      · rw [hfields.2, htwin]
        simp [strOptFalsy]
  have hload : load_config env = Except.error () := by
    unfold load_config
    cases hcf : configFromEnv env with
    | error e => rfl
    | ok c => simp [key c hcf]
  exact ⟨key, hload, by unfold async_main; rw [hload]⟩

/-- Claim C1: with a connected client, every processed StartVideo or
StopVideo command publishes exactly one acknowledgment — "ok" when the
start/stop sequence succeeds (or the command is a no-op), "error" when it
raises — and no acknowledgment is ever published for an Unknown command:
the callback itself publishes nothing on any input, and it schedules a
handler only for the recognized commands "start_video" and "stop_video". -/
theorem c1_exactly_one_ack (env : Env) (s : ServiceState)
    (hc : s.clientPresent = true) :
    (s.video_stream = none →
      ackResults (handle_start_video_command env s).2 =
        [ackString (start_video_stream env s).1]) ∧
    (∀ h, s.video_stream = some h →
      ackResults (handle_start_video_command env s).2 = ["ok"]) ∧
    ackResults (handle_stop_video_command s).2 = ["ok"] ∧
    (∀ la data, ackResultsE (on_command_message la data).2 = []) ∧
    (∀ la data sch, (on_command_message la data).1 = some sch →
      commandField data = some "start_video" ∨
      commandField data = some "stop_video") := by
  rcases env with ⟨cr, h⟩
  rcases h with ⟨hid, pc, pcR, sp, spR, stR, rel, relR, startR⟩
  rcases s with ⟨cp, vs⟩
  simp only at hc
  subst hc
  refine ⟨?_, ?_, ?_, ?_, ?_⟩
  · intro hv
    simp only at hv
    subst hv
    cases cr <;> cases startR <;> cases stR <;> rfl
  · intro h2 hv
    simp only at hv
    subst hv
    rfl
  · cases vs with
    | none => rfl
    | some h2 =>
        rcases h2 with ⟨hid2, pc2, pcR2, sp2, spR2, stR2, rel2, relR2, startR2⟩
        cases pc2 <;> cases pcR2 <;> cases sp2 <;> cases spR2 <;> cases stR2 <;>
          rfl
  · intro la data
    cases data with
    | notDict => cases la <;> rfl
    | dict es =>
        cases hks : hasKey es "status" with
        | false =>
            cases hlk : es.lookup "command" with
            | none => simp [on_command_message, hks, hlk, ackResultsE]
            | some c =>
                by_cases h0 : c = ""
                · simp [on_command_message, hks, hlk, h0, ackResultsE]
                · cases la
                  · simp [on_command_message, hks, hlk, h0, ackResultsE]
                  · by_cases h1 : c = "start_video"
                    · simp [on_command_message, hks, hlk, h0, h1, ackResultsE]
                    · by_cases h2 : c = "stop_video"
                      · simp [on_command_message, hks, hlk, h0, h1, h2,
                          ackResultsE]
                      · simp [on_command_message, hks, hlk, h0, h1, h2,
                          ackResultsE]
        | true => simp [on_command_message, hks, ackResultsE]
  · intro la data sch hsch
    cases data with
    | notDict => exact Option.noConfusion hsch
    | dict es =>
        cases hks : hasKey es "status" with
        | false =>
            cases hlk : es.lookup "command" with
            | none => simp [on_command_message, hks, hlk] at hsch
            | some c =>
                by_cases h0 : c = ""
                · simp [on_command_message, hks, hlk, h0] at hsch
                · cases la
                  · simp [on_command_message, hks, hlk, h0] at hsch
                  · by_cases h1 : c = "start_video"
                    · exact Or.inl (by rw [commandField, hlk, h1])
                    · by_cases h2 : c = "stop_video"
                      · exact Or.inr (by rw [commandField, hlk, h2])
                      · simp [on_command_message, hks, hlk, h0, h1, h2] at hsch
        | true => simp [on_command_message, hks] at hsch

/-! ## Witnesses: the claim theorems applied at concrete inputs -/

/-- Claim C1's theorem at a concrete input: a fresh service with a client
and no stream, a start environment whose handle starts cleanly — the
StartVideo handler publishes exactly ["ok"]. -/
theorem c1_exactly_one_ack_witness :
    ackResults (handle_start_video_command
      ⟨false, ⟨0, false, false, false, false, false, false, false, false⟩⟩
      ⟨true, none⟩).2 = ["ok"] :=
  ((c1_exactly_one_ack
      ⟨false, ⟨0, false, false, false, false, false, false, false, false⟩⟩
      ⟨true, none⟩ rfl).1 rfl).trans rfl

/-- Claim C2's theorem at a concrete input: a handle whose `start()`
raises — the handler publishes ["error"] and retains no handle. -/
theorem c2_start_failure_contained_witness :
    ackResults (handle_start_video_command
      ⟨false, ⟨7, false, false, false, false, false, false, false, true⟩⟩
      ⟨true, none⟩).2 = ["error"] ∧
    (handle_start_video_command
      ⟨false, ⟨7, false, false, false, false, false, false, false, true⟩⟩
      ⟨true, none⟩).1.video_stream = none :=
  ⟨(c2_start_failure_contained
      ⟨false, ⟨7, false, false, false, false, false, false, false, true⟩⟩
      ⟨true, none⟩ rfl rfl rfl rfl).1,
   (c2_start_failure_contained
      ⟨false, ⟨7, false, false, false, false, false, false, false, true⟩⟩
      ⟨true, none⟩ rfl rfl rfl rfl).2.1⟩

/-- Claim C3's theorem at a concrete input: StartVideo with a stream
already running leaves the state unchanged. -/
theorem c3_start_idempotent_when_running_witness :
    (handle_start_video_command
      ⟨false, ⟨0, false, false, false, false, false, false, false, false⟩⟩
      ⟨true, some ⟨3, false, false, false, false, false, false, false, false⟩⟩).1 =
      ⟨true, some ⟨3, false, false, false, false, false, false, false, false⟩⟩ :=
  (c3_start_idempotent_when_running
    ⟨false, ⟨0, false, false, false, false, false, false, false, false⟩⟩
    ⟨true, some ⟨3, false, false, false, false, false, false, false, false⟩⟩
    ⟨3, false, false, false, false, false, false, false, false⟩ rfl rfl).2.2

/-- Claim C4's theorem at a concrete input: StopVideo with no stream leaves
the state unchanged. -/
theorem c4_stop_idempotent_when_absent_witness :
    (handle_stop_video_command ⟨true, none⟩).1 = ⟨true, none⟩ :=
  (c4_stop_idempotent_when_absent ⟨true, none⟩ rfl rfl).2.2

/-- Claim C5's amended theorem at a concrete input: a handle whose `stop()`
raises — the failure is logged and no `release()` is invoked. -/
theorem c5_stop_failure_logged_no_release_witness :
    Effect.logError "Error stopping stream" ∈
      (stop_video_stream
        ⟨true, some ⟨5, false, false, false, false, true, false, false, false⟩⟩).2.2.map
        Prod.fst ∧
    ((stop_video_stream
        ⟨true, some ⟨5, false, false, false, false, true, false, false, false⟩⟩).2.2.map
        Prod.fst).any isRelease = false :=
  c5_stop_failure_logged_no_release
    ⟨true, some ⟨5, false, false, false, false, true, false, false, false⟩⟩
    ⟨5, false, false, false, false, true, false, false, false⟩ rfl rfl

/-- Claim C7's theorem at a concrete input: the echoed acknowledgment
message is ignored outright. -/
theorem c7_status_messages_ignored_witness :
    on_command_message true (MsgData.dict [("status", "ok")]) = (none, []) :=
  c7_status_messages_ignored true (MsgData.dict [("status", "ok")]) rfl

/-- Claim C8's theorem at a concrete input: the unknown command "reboot"
is warned about, schedules nothing and acknowledges nothing. -/
theorem c8_unknown_command_warned_witness :
    (on_command_message true (MsgData.dict [("command", "reboot")])).1 = none ∧
    (∃ m, Effect.logWarning m ∈
      (on_command_message true (MsgData.dict [("command", "reboot")])).2) ∧
    ackResultsE (on_command_message true (MsgData.dict [("command", "reboot")])).2
      = [] :=
  c8_unknown_command_warned true (MsgData.dict [("command", "reboot")]) rfl rfl
    (Or.inr ⟨"reboot", rfl, by decide, by decide, by decide⟩)

/-- Claim C9's theorem at a concrete input: an empty environment (token and
twin both absent) makes startup fail with exit code 1 and no connection
attempt. -/
theorem c9_config_validation_fatal_witness :
    (∀ c, configFromEnv (fun _ => none) = Except.ok c → c.validate = false) ∧
    load_config (fun _ => none) = Except.error () ∧
    async_main (fun _ => none) = (some 1, false) :=
  c9_config_validation_fatal (fun _ => none) (Or.inl rfl)

/-- Claim C10's theorem at a concrete input: with no client, neither
handler publishes anything. -/
theorem c10_no_client_no_ack_witness :
    ackResults (handle_start_video_command
      ⟨false, ⟨0, false, false, false, false, false, false, false, false⟩⟩
      ⟨false, none⟩).2 = [] ∧
    ackResults (handle_stop_video_command ⟨false, none⟩).2 = [] :=
  ⟨(c10_no_client_no_ack
      ⟨false, ⟨0, false, false, false, false, false, false, false, false⟩⟩
      ⟨false, none⟩ rfl).2.2.1,
   (c10_no_client_no_ack
      ⟨false, ⟨0, false, false, false, false, false, false, false, false⟩⟩
      ⟨false, none⟩ rfl).2.2.2.1⟩

end CyberwaveEdge
